import Mathlib

/-!
Verification of the LinguaPhon app (`src/app.py`) against its specification.

The repository is a single Streamlit script.  We shallowly embed:
  * the eSpeak NG renderer gateway `ipa_to_speech_direct` (command
    construction, subprocess outcome handling, transient output file);
  * the voice table `espeak_voice`;
  * the two orchestrated flows (tab1: recognize-and-analyze, tab2:
    synthesize-and-verify) as action traces over their possible exit paths;
  * the `st.cache_resource`-cached recognizer loader `load_allosaurus`;
  * the acoustic analyzer `analyze_acoustics` / `plot_spectrogram`.
    The analysis itself is performed by the external Praat library
    (parselmouth), whose implementation is not part of this repository;
    those parts are modelled from the spec (§4.2) and so marked.

Machine floats are modelled by ℚ; the float NaN returned by Praat for a
voiceless mean is modelled by `Option ℚ` (`none` = NaN), matching the
explicit `np.isnan` guard in `analyze_acoustics`.
-/

namespace LinguaPhon

/-! ## Renderer gateway: `ipa_to_speech_direct` (src/app.py lines 61-91) -/

/-- `formatted_ipa = f'[[{...}]]'` (line 76): the phonetic string wrapped in
eSpeak NG's "interpret as phoneme symbols, not orthography" delimiter. -/
def formatted_ipa (ipa_string : String) : String :=
  "[[" ++ ipa_string ++ "]]"

/-- The argument vector built at lines 78-84: `espeak-ng -m -v VOICE -w FILE [[IPA]]`. -/
def espeakCmd (ipa_string voice_lang output_file : String) : List String :=
  ["espeak-ng", "-m", "-v", voice_lang, "-w", output_file, formatted_ipa ipa_string]

/-- Observable outcome of the external `espeak-ng` subprocess: its exit code
and whether it populated the output file. -/
structure RenderOutcome where
  exitCode : Nat
  outputPopulated : Bool
  deriving DecidableEq, Repr

/-- Result of one call to `ipa_to_speech_direct`:
`returned` is the Python return value (`some path` or `none`), and
`tempFileRemains` records whether the temporary `.wav` created at line 67
still exists when the function returns (the function itself never unlinks it). -/
structure SynthCallResult where
  returned : Option String
  tempFileRemains : Bool
  deriving DecidableEq, Repr

/-- `ipa_to_speech_direct` (lines 61-91): creates a temp output file, runs
`subprocess.run(cmd, check=True)`; `check=True` raises exactly when the exit
code is non-zero, the `except` branch returns `None`.  The output file's
content is never inspected, and no path deletes the temp file. -/
def ipa_to_speech_direct (outcome : RenderOutcome) (output_file : String) :
    SynthCallResult :=
  if outcome.exitCode = 0 then
    { returned := some output_file, tempFileRemains := true }
  else
    { returned := none, tempFileRemains := true }

/-! ## Voice table (src/app.py lines 145-147) -/

/-- The dict `{'eng': 'en-us', 'cmn': 'zh', 'jpn': 'ja', 'spa': 'es',
'fra': 'fr'}.get(lang_code, 'en')`. -/
def espeak_voice (lang_code : String) : String :=
  if lang_code = "eng" then "en-us"
  else if lang_code = "cmn" then "zh"
  else if lang_code = "jpn" then "ja"
  else if lang_code = "spa" then "es"
  else if lang_code = "fra" then "fr"
  else "en"

/-! ## Flow orchestration as action traces

Streamlit reruns the script top to bottom; an uncaught exception anywhere
aborts the rerun at that point, and an abandoned rerun (user navigates away
or the session is torn down) likewise stops executing further statements.
Each flow is embedded as the list of filesystem-relevant actions the script
executes on each possible exit path. -/

inductive Action where
  | createTemp
  | recognize
  | analyze
  | render
  | unlinkTemp
  deriving DecidableEq, Repr

/-- Exit paths of the tab1 recognize-and-analyze flow (lines 156-196). -/
inductive FlowAExit where
  | success
  | recognizeRaises
  | analyzeRaises
  | abandoned
  deriving DecidableEq, Repr

/-- Actions executed by the tab1 flow (lines 156-196): the temp `.wav` is
created at line 158, recognition (line 164) and analysis (line 167) follow,
and `os.unlink(tmp_path)` is the last statement (line 196), with no
`try`/`finally` around it. -/
def tab1Trace : FlowAExit → List Action
  | .success => [.createTemp, .recognize, .analyze, .unlinkTemp]
  | .recognizeRaises => [.createTemp, .recognize]
  | .analyzeRaises => [.createTemp, .recognize, .analyze]
  | .abandoned => [.createTemp]

/-- Exit paths of the tab2 synthesize-and-verify flow (lines 214-228). -/
inductive FlowBExit where
  | success
  | rendererFails
  | analyzeRaises
  | abandoned
  deriving DecidableEq, Repr

/-- Actions executed by the tab2 flow (lines 214-228): the temp output file
is created inside `ipa_to_speech_direct` (line 67) before the renderer runs;
on a renderer failure the function returns `None` and the `if synth_path`
block — including the `os.unlink(synth_path)` at line 228 — is skipped. -/
def tab2Trace : FlowBExit → List Action
  | .success => [.createTemp, .render, .analyze, .unlinkTemp]
  | .rendererFails => [.createTemp, .render]
  | .analyzeRaises => [.createTemp, .render, .analyze]
  | .abandoned => [.createTemp, .render]

/-- A trace leaves its transient file behind when it created one and never
unlinked it. -/
def tempRemains (t : List Action) : Bool :=
  t.contains .createTemp && !(t.contains .unlinkTemp)

/-- The tab2 flow seen as a function of the subprocess outcome:
whether `analyze_acoustics` is invoked on the synthesized path, and whether
the transient output file remains on disk after the rerun.  Mirrors lines
214-228: analysis and `os.unlink` run only under `if synth_path:`. -/
def tab2Flow (outcome : RenderOutcome) (output_file : String) :
    Bool × Bool :=
  match (ipa_to_speech_direct outcome output_file).returned with
  | some _ => (true, false)
  | none => (false, true)

/-! ## Recognizer resource caching (src/app.py lines 42-47)

`load_allosaurus` is decorated with `@st.cache_resource`.  Modelled from the
spec: the decorator's memoization semantics (a process-wide cache holding the
resource once constructed; the decorated body runs only on a cache miss) is
not part of this repository, so it is embedded as explicit state passing.
`Nat` stands for an opaque recognizer instance identity. -/

structure CacheState where
  cached : Option Nat
  initCount : Nat
  deriving DecidableEq, Repr

/-- One call of the cached `load_allosaurus`: `fresh` is the instance the
body `read_recognizer()` would construct if it ran; it runs only on a miss,
and the constructed instance is stored and returned thereafter. -/
def load_allosaurus (fresh : Nat) (s : CacheState) : Nat × CacheState :=
  match s.cached with
  | some r => (r, s)
  | none => (fresh, { cached := some fresh, initCount := s.initCount + 1 })

/-- A sequence of recognition requests, each going through the cached
loader; `freshes` lists the instance each call would construct on a miss. -/
def runRecognitions : List Nat → CacheState → List Nat × CacheState
  | [], s => ([], s)
  | f :: fs, s =>
      let rs := load_allosaurus f s
      let rest := runRecognitions fs rs.2
      (rs.1 :: rest.1, rest.2)

/-- State of the process before the first Streamlit rerun. -/
def initialCache : CacheState := { cached := none, initCount := 0 }

/-! ## Acoustic analyzer (src/app.py lines 93-131)

`analyze_acoustics` delegates pitch/intensity/spectrogram extraction to the
external Praat library (parselmouth), which is not part of this repository.
Modelled from the spec (§4.2): short-time windowed analysis; per-frame
autocorrelation pitch with a fixed voicing threshold over the
[minF0 = 75 Hz, maxF0 = 600 Hz] range; per-frame energy on a dB-like scale;
an STFT-like time-frequency grid.  One representation fact is taken from
the source rather than the spec: `plot_spectrogram` (lines 122-123) replaces
zeros of `pitch.selected_array['frequency']` by NaN, which witnesses that
the contour Praat hands back marks unvoiced frames with the literal
frequency 0. -/

structure WaveformBuffer where
  samples : List ℚ
  sampleRate : Nat
  deriving DecidableEq, Repr

/-- Number of complete analysis frames of width `w` at hop `h` in `n` samples. -/
def numFrames (n w h : Nat) : Nat :=
  if n < w then 0 else (n - w) / h + 1

/-- The analysis frame starting at sample `start`, `w` samples wide. -/
def frameAt (samples : List ℚ) (start w : Nat) : List ℚ :=
  (samples.drop start).take w

/-- All short-time frames of width `w` at hop `h`. -/
def stFrames (samples : List ℚ) (w h : Nat) : List (List ℚ) :=
  (List.range (numFrames samples.length w h)).map fun i => frameAt samples (i * h) w

/-- Autocorrelation of a frame at integer lag `lag` (lag 0 is the energy). -/
def dotShift (f : List ℚ) (lag : Nat) : ℚ :=
  ((f.zip (f.drop lag)).map fun p => p.1 * p.2).sum

/-- Frame energy: autocorrelation at lag 0, i.e. the sum of squares. -/
def energy (f : List ℚ) : ℚ := dotShift f 0

/-- Best periodicity candidate: fold over candidate lags keeping the one with
the largest autocorrelation. -/
def argmaxLag (f : List ℚ) : List Nat → Nat × ℚ → Nat × ℚ
  | [], acc => acc
  | l :: ls, acc =>
      argmaxLag f ls (if acc.2 < dotShift f l then (l, dotShift f l) else acc)

/-- Modelled from the spec: the fixed voicing threshold on the normalized
autocorrelation peak. -/
def voicingThreshold : ℚ := 45 / 100

/-- Smallest candidate lag (period of maxF0 = 600 Hz), at least one sample. -/
def minLag (rate : Nat) : Nat := max (rate / 600) 1

/-- Largest candidate lag (period of minF0 = 75 Hz). -/
def maxLag (rate : Nat) : Nat := max (rate / 75) (minLag rate)

/-- Pitch window: three periods of the pitch floor, at least one sample. -/
def pitchWindow (rate : Nat) : Nat := max (3 * rate / 75) 1

/-- Pitch analysis hop: 0.01 s, at least one sample. -/
def pitchStep (rate : Nat) : Nat := max (rate / 100) 1

/-- Frequency estimate for one frame: 0 marks an unvoiced frame (the
representation `plot_spectrogram` witnesses); a frame is voiced when the
autocorrelation peak over the candidate lag range exceeds the voicing
threshold times the energy, and then carries `rate / bestLag`. -/
def frameFreq (rate : Nat) (f : List ℚ) : ℚ :=
  let e := energy f
  if e = 0 then 0
  else
    let lo := minLag rate
    let cands := List.range' lo (maxLag rate + 1 - lo)
    let best := argmaxLag f cands (lo, dotShift f lo)
    if voicingThreshold * e < best.2 then (rate : ℚ) / (best.1 : ℚ) else 0

/-- `snd.to_pitch()` as a contour of (timestamp, frequency-or-0) pairs. -/
def computePitch (b : WaveformBuffer) : List (ℚ × ℚ) :=
  let w := pitchWindow b.sampleRate
  let h := pitchStep b.sampleRate
  (List.range (numFrames b.samples.length w h)).map fun i =>
    (((i * h + w / 2 : Nat) : ℚ) / (b.sampleRate : ℚ),
      frameFreq b.sampleRate (frameAt b.samples (i * h) w))

/-- The voiced (nonzero-frequency) values of a contour; Praat's mean is
taken over these only. -/
def voicedValues (contour : List (ℚ × ℚ)) : List ℚ :=
  (contour.map Prod.snd).filter fun v => v ≠ 0

/-- `pitch.get_mean()`: `none` models the float NaN Praat returns when the
contour has no voiced frame. -/
def pitchGetMean (contour : List (ℚ × ℚ)) : Option ℚ :=
  let vs := voicedValues contour
  if vs.isEmpty then none else some (vs.sum / (vs.length : ℚ))

/-- Lines 98-100 of `analyze_acoustics`: the mean F0 with the explicit
`np.isnan` guard turning NaN into 0.0. -/
def mean_f0 (b : WaveformBuffer) : ℚ :=
  match pitchGetMean (computePitch b) with
  | none => 0
  | some m => m

/-- Modelled from the spec: the "very low but finite dB floor" that silent
intensity degrades to. -/
def dbFloor : ℚ := -100

/-- Modelled from the spec: per-frame energy converted to a dB-like scale.
The transcendental base-10 logarithm is replaced by the integer logarithm of
the numerator and denominator so the embedding stays computable; the claims
rely only on the zero-energy floor, finiteness, and determinism. -/
def dbOf (e : ℚ) : ℚ :=
  if e = 0 then dbFloor
  else 10 * ((Nat.log 10 e.num.natAbs : ℚ) - (Nat.log 10 e.den : ℚ))

/-- Intensity window: 0.032 s, at least one sample. -/
def intensityWindow (rate : Nat) : Nat := max (32 * rate / 1000) 1

/-- Intensity hop: 0.008 s, at least one sample. -/
def intensityStep (rate : Nat) : Nat := max (8 * rate / 1000) 1

/-- `snd.to_intensity()` as the per-frame dB sequence. -/
def computeIntensity (b : WaveformBuffer) : List ℚ :=
  (stFrames b.samples (intensityWindow b.sampleRate) (intensityStep b.sampleRate)).map
    fun f => dbOf (energy f)

/-- `intensity.get_average()` (line 104): mean of the per-frame dB values,
degrading to the floor when there is no frame. -/
def mean_int (b : WaveformBuffer) : ℚ :=
  let l := computeIntensity b
  if l.isEmpty then dbFloor else l.sum / (l.length : ℚ)

/-- `snd.to_spectrogram()` as a grid of lag-indexed short-time correlation
values per frame (an STFT-magnitude proxy; only shape and determinism are
relied upon by the claims). -/
def computeSpectrogram (b : WaveformBuffer) : List (List ℚ) :=
  let w := intensityWindow b.sampleRate
  (stFrames b.samples w (intensityStep b.sampleRate)).map
    fun f => (List.range w).map fun k => dotShift f k

/-- `analyze_acoustics` (lines 93-106): the full analysis result consumed by
the two flows, as a function of the buffer alone. -/
def analyze_acoustics (b : WaveformBuffer) :
    List (ℚ × ℚ) × ℚ × List ℚ × ℚ × List (List ℚ) :=
  (computePitch b, mean_f0 b, computeIntensity b, mean_int b, computeSpectrogram b)

/-- Lines 122-123 of `plot_spectrogram`:
`pitch_values[pitch_values==0] = np.nan` — the plotting boundary converts
the literal-0 unvoiced marker into NaN (`none`). -/
def plotPitchValues (contour : List (ℚ × ℚ)) : List (Option ℚ) :=
  contour.map fun p => if p.2 = 0 then none else some p.2

/-- Every frame of the contour carries either the literal 0 unvoiced marker
or a strictly positive frequency (so 0 collides with no voiced value). -/
def contourSentinelOk (contour : List (ℚ × ℚ)) : Prop :=
  ∀ p ∈ contour, p.2 = 0 ∨ 0 < p.2

/-! ## Helper lemmas -/

lemma mem_frameAt {s : List ℚ} {start w : Nat} {x : ℚ} (hx : x ∈ frameAt s start w) :
    x ∈ s :=
  List.drop_subset start s (List.take_subset w _ hx)

lemma dotShift_eq_zero {f : List ℚ} (h : ∀ x ∈ f, x = 0) (lag : Nat) :
    dotShift f lag = 0 := by
  apply List.sum_eq_zero
  intro y hy
  rcases List.mem_map.1 hy with ⟨p, hp, rfl⟩
  have h1 := (List.of_mem_zip hp).1
  rw [h p.1 h1, zero_mul]

lemma frameFreq_silent {f : List ℚ} (h : ∀ x ∈ f, x = 0) (rate : Nat) :
    frameFreq rate f = 0 := by
  unfold frameFreq
  simp [energy, dotShift_eq_zero h]

lemma computePitch_silent {b : WaveformBuffer} (h : ∀ x ∈ b.samples, x = 0) :
    ∀ p ∈ computePitch b, p.2 = 0 := by
  intro p hp
  unfold computePitch at hp
  rcases List.mem_map.1 hp with ⟨i, _, rfl⟩
  exact frameFreq_silent (fun x hx => h x (mem_frameAt hx)) _

lemma voicedValues_silent {b : WaveformBuffer} (h : ∀ x ∈ b.samples, x = 0) :
    voicedValues (computePitch b) = [] := by
  apply List.filter_eq_nil_iff.mpr
  intro v hv
  rcases List.mem_map.1 hv with ⟨p, hp, rfl⟩
  simp [computePitch_silent h p hp]

lemma mean_f0_silent {b : WaveformBuffer} (h : ∀ x ∈ b.samples, x = 0) :
    mean_f0 b = 0 := by
  unfold mean_f0 pitchGetMean
  simp [voicedValues_silent h]

lemma computeIntensity_const {b : WaveformBuffer} (h : ∀ x ∈ b.samples, x = 0) :
    ∀ v ∈ computeIntensity b, v = dbFloor := by
  intro v hv
  unfold computeIntensity at hv
  rcases List.mem_map.1 hv with ⟨f, hf, rfl⟩
  unfold stFrames at hf
  rcases List.mem_map.1 hf with ⟨i, _, rfl⟩
  have hz : ∀ x ∈ frameAt b.samples (i * intensityStep b.sampleRate)
      (intensityWindow b.sampleRate), x = 0 :=
    fun x hx => h x (mem_frameAt hx)
  simp [energy, dotShift_eq_zero hz, dbOf]

lemma mean_const {l : List ℚ} {m : ℚ} (h : ∀ x ∈ l, x = m) (hne : ¬ l.isEmpty) :
    l.sum / (l.length : ℚ) = m := by
  rw [List.sum_eq_card_nsmul l m h, nsmul_eq_mul]
  have hl : (l.length : ℚ) ≠ 0 := by
    simp only [ne_eq, Nat.cast_eq_zero]
    intro h0
    exact hne (List.isEmpty_iff_length_eq_zero.mpr h0)
  field_simp

lemma mean_int_silent {b : WaveformBuffer} (h : ∀ x ∈ b.samples, x = 0) :
    mean_int b = dbFloor := by
  unfold mean_int
  by_cases he : (computeIntensity b).isEmpty
  · simp [he]
  · simp only [he, if_false]
    exact mean_const (computeIntensity_const h) he

lemma argmaxLag_fst_le {f : List ℚ} {n : Nat} :
    ∀ (cands : List Nat) (acc : Nat × ℚ), (∀ l ∈ cands, n ≤ l) → n ≤ acc.1 →
      n ≤ (argmaxLag f cands acc).1 := by
  intro cands
  induction cands with
  | nil => intro acc _ hacc; exact hacc
  | cons l ls ih =>
      intro acc hc hacc
      unfold argmaxLag
      apply ih
      · intro x hx; exact hc x (List.mem_cons_of_mem l hx)
      · by_cases hlt : acc.2 < dotShift f l
        · simp [hlt]; exact hc l (List.mem_cons_self l ls)
        · simp [hlt]; exact hacc

lemma frameFreq_zero_or_pos {f : List ℚ} {rate : Nat} (hr : 0 < rate) :
    frameFreq rate f = 0 ∨ 0 < frameFreq rate f := by
  unfold frameFreq
  by_cases he : energy f = 0
  · simp [he]
  · simp only [he, if_false]
    set lo := minLag rate with hlo
    set best := argmaxLag f (List.range' lo (maxLag rate + 1 - lo)) (lo, dotShift f lo)
      with hbest
    by_cases hv : voicingThreshold * energy f < best.2
    · right
      simp only [hv, if_true]
      have h1 : 1 ≤ best.1 := by
        apply argmaxLag_fst_le
        · intro l hl
          have := (List.mem_range'_1.mp hl).1
          exact le_trans (Nat.le_max_right _ 1) this
        · exact Nat.le_max_right _ 1
      apply div_pos
      · exact_mod_cast hr
      · exact_mod_cast h1
    · simp [hv]

lemma runRecognitions_cached :
    ∀ (fs : List Nat) (r : Nat) (c : Nat),
      runRecognitions fs ⟨some r, c⟩ = (fs.map fun _ => r, ⟨some r, c⟩) := by
  intro fs
  induction fs with
  | nil => intro r c; rfl
  | cons f fs ih => intro r c; simp [runRecognitions, load_allosaurus, ih]

/-! ## Claim theorems -/

/-- C1, counterexample: the claim says every transient audio file is deleted
on every exit path of both flows; but when recognition raises in the tab1
flow, or when the renderer fails in the tab2 flow, the transient `.wav`
remains on disk — `os.unlink` is only reached on the success path. -/
theorem C1_counterexample :
    tempRemains (tab1Trace .recognizeRaises) = true ∧
    tempRemains (tab2Trace .rendererFails) = true := by decide

/-- C1, amended: the transient file of each flow is removed exactly on the
successful-completion exit path; on an error or abandonment exit it is left
behind (there is no `try`/`finally` or context-managed deletion). -/
theorem C1_cleanup_only_on_success :
    ∀ (a : FlowAExit) (b : FlowBExit),
      (tempRemains (tab1Trace a) = false ↔ a = .success) ∧
      (tempRemains (tab2Trace b) = false ↔ b = .success) := by
  intro a b
  cases a <;> cases b <;> exact ⟨by decide, by decide⟩

/-- C2: for every entirely silent (all-zero) buffer, the mean pitch reported
by `analyze_acoustics` is 0 (every frame is unvoiced, and the `np.isnan`
guard turns the undefined mean into 0.0) and the mean intensity is the
defined finite dB floor; both are defined rationals, so neither NaN nor
infinity, and no exception is raised. -/
theorem C2_silent_buffer_degrades :
    ∀ b : WaveformBuffer, (∀ x ∈ b.samples, x = 0) →
      mean_f0 b = 0 ∧ mean_int b = dbFloor :=
  fun _ h => ⟨mean_f0_silent h, mean_int_silent h⟩

/-- C2, witness: the 8-sample all-zero buffer at 100 Hz. -/
theorem C2_witness :
    (∀ x ∈ (List.replicate 8 (0 : ℚ)), x = 0) ∧
    (mean_f0 ⟨List.replicate 8 0, 100⟩ = 0 ∧
     mean_int ⟨List.replicate 8 0, 100⟩ = dbFloor) :=
  ⟨by decide, C2_silent_buffer_degrades ⟨List.replicate 8 0, 100⟩ (by decide)⟩

/-- C3: for every buffer of duration 0 (empty signal), `computePitch`
returns the empty contour and the mean pitch is 0.0; no exception arises. -/
theorem C3_empty_buffer :
    ∀ b : WaveformBuffer, b.samples = [] →
      computePitch b = [] ∧ mean_f0 b = 0 := by
  intro b h
  have hw : 0 < pitchWindow b.sampleRate :=
    lt_of_lt_of_le Nat.zero_lt_one (Nat.le_max_right _ 1)
  have hpitch : computePitch b = [] := by
    simp [computePitch, h, numFrames, hw]
  exact ⟨hpitch, by simp [mean_f0, pitchGetMean, hpitch, voicedValues]⟩

/-- C3, witness: the empty buffer at 44100 Hz. -/
theorem C3_witness :
    (⟨[], 44100⟩ : WaveformBuffer).samples = [] ∧
    (computePitch ⟨[], 44100⟩ = [] ∧ mean_f0 ⟨[], 44100⟩ = 0) :=
  ⟨rfl, C3_empty_buffer ⟨[], 44100⟩ rfl⟩

/-- C4, counterexample: the claim says success requires exit code 0 together
with a populated output file; but when the renderer exits 0 without
populating the output file, `ipa_to_speech_direct` still returns the path
(success) — the output artifact is never inspected. -/
theorem C4_counterexample :
    (⟨0, false⟩ : RenderOutcome).outputPopulated = false ∧
    (ipa_to_speech_direct ⟨0, false⟩ "out.wav").returned = some "out.wav" :=
  ⟨rfl, rfl⟩

/-- C4, amended: synthesis fails (returns `None`, via the caught
`CalledProcessError`, reported and not retried) exactly when the external
process exits non-zero; whether the output file is populated is not
checked. -/
theorem C4_failure_iff_nonzero_exit :
    ∀ (o : RenderOutcome) (f : String),
      (ipa_to_speech_direct o f).returned = none ↔ o.exitCode ≠ 0 := by
  intro o f
  unfold ipa_to_speech_direct
  by_cases h : o.exitCode = 0 <;> simp [h]

/-- C5: across any sequence of recognition requests in one process, the
cached `load_allosaurus` constructs the recognizer exactly once (on the
first call), every request receives that same first instance, and the
cache entry is never replaced afterwards. -/
theorem C5_single_initialization :
    ∀ (f : Nat) (fs : List Nat),
      runRecognitions (f :: fs) initialCache =
        ((f :: fs).map fun _ => f, { cached := some f, initCount := 1 }) := by
  intro f fs
  simp [runRecognitions, initialCache, load_allosaurus, runRecognitions_cached]

/-- C6, counterexample: the claim says unvoiced frames never carry a literal
zero frequency; but on the 8-sample silent buffer at 100 Hz the analyzer
produces five frames, all unvoiced (no voiced value), each carrying the
literal frequency 0 — exactly the representation `plot_spectrogram`
compensates for by rewriting zeros to NaN. -/
theorem C6_counterexample :
    (computePitch ⟨List.replicate 8 0, 100⟩).map Prod.snd = List.replicate 5 0 ∧
    voicedValues (computePitch ⟨List.replicate 8 0, 100⟩) = [] := by
  have hz : ∀ x ∈ (⟨List.replicate 8 0, 100⟩ : WaveformBuffer).samples, x = 0 := by
    decide
  constructor
  · rw [List.eq_replicate_iff]
    constructor
    · simp [computePitch, numFrames, pitchWindow, pitchStep]
    · intro v hv
      rcases List.mem_map.1 hv with ⟨p, hp, rfl⟩
      exact computePitch_silent hz p hp
  · exact voicedValues_silent hz

/-- C6, amended: unvoiced frames carry the literal frequency 0 in the raw
contour — still distinct from every voiced value, since voiced frames carry
strictly positive frequencies — and the plotting boundary (not the
analyzer) converts 0 to the NaN sentinel; the mean is taken over voiced
frames only and degrades to 0 when none are voiced. -/
theorem C6_zero_sentinel :
    ∀ b : WaveformBuffer, 0 < b.sampleRate →
      contourSentinelOk (computePitch b) ∧
      (voicedValues (computePitch b) = [] → mean_f0 b = 0) ∧
      plotPitchValues (computePitch b) =
        (computePitch b).map fun p => if p.2 = 0 then none else some p.2 := by
  intro b hr
  refine ⟨?_, ?_, rfl⟩
  · intro p hp
    unfold computePitch at hp
    rcases List.mem_map.1 hp with ⟨i, _, rfl⟩
    exact frameFreq_zero_or_pos hr
  · intro hv
    unfold mean_f0 pitchGetMean
    simp [hv]

/-- C6, witness: the amended statement at the 8-sample silent buffer. -/
theorem C6_witness :
    0 < (⟨List.replicate 8 0, 100⟩ : WaveformBuffer).sampleRate ∧
    (contourSentinelOk (computePitch ⟨List.replicate 8 0, 100⟩) ∧
     (voicedValues (computePitch ⟨List.replicate 8 0, 100⟩) = [] →
        mean_f0 ⟨List.replicate 8 0, 100⟩ = 0) ∧
     plotPitchValues (computePitch ⟨List.replicate 8 0, 100⟩) =
       (computePitch ⟨List.replicate 8 0, 100⟩).map
         fun p => if p.2 = 0 then none else some p.2) :=
  ⟨by decide, C6_zero_sentinel ⟨List.replicate 8 0, 100⟩ (by decide)⟩

/-- C7: for every phonetic string, the renderer command carries the
phonetic-mode flag `-m` and its final argument is the string wrapped in the
`[[...]]` phoneme-input delimiter, so the IPA is interpreted as phonetic
symbols rather than orthographic text. -/
theorem C7_phonetic_mode_invocation :
    ∀ (s v o : String),
      "-m" ∈ espeakCmd s v o ∧
      (espeakCmd s v o).getLast? = some ("[[" ++ s ++ "]]") := by
  intro s v o
  exact ⟨by simp [espeakCmd], rfl⟩

/-- C8: acoustic analysis is deterministic — `analyze_acoustics` is a
function of the buffer alone (pitch contour, mean F0, intensity contour,
mean intensity, spectrogram), so two runs on the same buffer with the same
parameters produce identical results, with no hidden random state. -/
theorem C8_deterministic :
    ∀ b₁ b₂ : WaveformBuffer, b₁ = b₂ →
      analyze_acoustics b₁ = analyze_acoustics b₂ := by
  intro b₁ b₂ h
  rw [h]

/-- C8, witness: two runs on the same 4-sample buffer. -/
theorem C8_witness :
    (⟨[1, 0, 1, 0], 100⟩ : WaveformBuffer) = ⟨[1, 0, 1, 0], 100⟩ ∧
    analyze_acoustics ⟨[1, 0, 1, 0], 100⟩ = analyze_acoustics ⟨[1, 0, 1, 0], 100⟩ :=
  ⟨rfl, C8_deterministic _ _ rfl⟩

/-- C9: the renderer voice identifier is obtained from the language code by
the fixed table eng→en-us, cmn→zh, jpn→ja, spa→es, fra→fr, and the mapping
is 1-to-1 on the enumerated set (all five voices are pairwise distinct). -/
theorem C9_voice_table :
    (espeak_voice "eng" = "en-us" ∧ espeak_voice "cmn" = "zh" ∧
     espeak_voice "jpn" = "ja" ∧ espeak_voice "spa" = "es" ∧
     espeak_voice "fra" = "fr") ∧
    (espeak_voice "eng" ≠ espeak_voice "cmn" ∧
     espeak_voice "eng" ≠ espeak_voice "jpn" ∧
     espeak_voice "eng" ≠ espeak_voice "spa" ∧
     espeak_voice "eng" ≠ espeak_voice "fra" ∧
     espeak_voice "cmn" ≠ espeak_voice "jpn" ∧
     espeak_voice "cmn" ≠ espeak_voice "spa" ∧
     espeak_voice "cmn" ≠ espeak_voice "fra" ∧
     espeak_voice "jpn" ≠ espeak_voice "spa" ∧
     espeak_voice "jpn" ≠ espeak_voice "fra" ∧
     espeak_voice "spa" ≠ espeak_voice "fra") := by decide

/-- C10: when the renderer exits non-zero, `ipa_to_speech_direct` returns
`None` (no exception propagates to the caller) and the temporary output
`.wav` created before the subprocess call is not deleted on that path; and
the tab2 caller runs acoustic analysis exactly when the returned path is
non-`None`. -/
theorem C10_renderer_failure_path :
    ∀ (o : RenderOutcome) (f : String),
      (o.exitCode ≠ 0 →
        (ipa_to_speech_direct o f).returned = none ∧
        (ipa_to_speech_direct o f).tempFileRemains = true ∧
        tab2Flow o f = (false, true)) ∧
      ((tab2Flow o f).1 = true ↔ (ipa_to_speech_direct o f).returned ≠ none) := by
  intro o f
  unfold tab2Flow ipa_to_speech_direct
  by_cases h : o.exitCode = 0 <;> simp [h]

/-- C10, witness: a renderer run exiting with code 2. -/
theorem C10_witness :
    (⟨2, true⟩ : RenderOutcome).exitCode ≠ 0 ∧
    ((ipa_to_speech_direct ⟨2, true⟩ "syn.wav").returned = none ∧
     (ipa_to_speech_direct ⟨2, true⟩ "syn.wav").tempFileRemains = true ∧
     tab2Flow ⟨2, true⟩ "syn.wav" = (false, true)) :=
  ⟨by decide, (C10_renderer_failure_path ⟨2, true⟩ "syn.wav").1 (by decide)⟩

end LinguaPhon
